import Mathlib

/-!
Shallow embedding of the calibration core of the sendspin-groupsync
repository, together with theorems settling the frozen claims about it.

Numeric values of the JavaScript source (IEEE doubles used as exact
arithmetic on small integers and simple fractions) are modelled as
rationals; square-root comparisons of the source are modelled by exact
rational comparisons of squares, with bridging lemmas that relate the
boolean comparators to `Real.sqrt`.
-/

namespace GroupSync

/-! ## Exact square-root comparators

The source compares `Math.sqrt v < b` and `Math.abs d <= 2 * Math.sqrt v`
on nonnegative variances.  On rationals these comparisons are decided
exactly by comparing squares; for a negative radicand `Math.sqrt` yields
`NaN` and every such comparison is false in JavaScript, which the guards
`0 ≤ v` reproduce. -/

/-- Exact form of the source comparison `Math.sqrt v < b` (used by
`isConverged` with `b = 2000`). -/
def sqrtLt (v b : ℚ) : Bool :=
  decide (0 ≤ v ∧ 0 < b ∧ v < b ^ 2)

/-- Exact form of the source comparison `Math.abs d <= 2 * Math.sqrt v`
(the outlier filter of `calculateAverageOffset`). -/
def absLeTwoSqrt (d v : ℚ) : Bool :=
  decide (0 ≤ v ∧ d ^ 2 ≤ 4 * v)

/-! ## ClockSynchronizer (src/unnamed/part_003)

State fields and constructor defaults follow the `ClockSynchronizer`
class: offset, drift, the covariance entries, the last update time and
the measurement counter, with the three readonly noise parameters kept
in a separate record. -/

structure ClockParams where
  processNoiseOffset : ℚ
  processNoiseDrift : ℚ
  measurementNoise : ℚ
deriving DecidableEq

/-- Constructor defaults `(100.0, 1.0, 10000.0)`. -/
def defaultParams : ClockParams :=
  { processNoiseOffset := 100, processNoiseDrift := 1, measurementNoise := 10000 }

structure ClockState where
  offset : ℚ
  drift : ℚ
  offsetVariance : ℚ
  driftVariance : ℚ
  covariance : ℚ
  lastUpdateTime : ℚ
  measurementCount : ℕ
deriving DecidableEq

/-- The freshly constructed state: zero estimates, high-uncertainty
variances `1e12` and `1e6`. -/
def initState : ClockState :=
  { offset := 0, drift := 0, offsetVariance := 10 ^ 12, driftVariance := 10 ^ 6
    covariance := 0, lastUpdateTime := 0, measurementCount := 0 }

/-- NTP offset formula `((t2 - t1) + (t3 - t4)) / 2`. -/
def measuredOffset (t1 t2 t3 t4 : ℚ) : ℚ :=
  ((t2 - t1) + (t3 - t4)) / 2

/-- Round-trip time `(t4 - t1) - (t3 - t2)`. -/
def rtt (t1 t2 t3 t4 : ℚ) : ℚ :=
  (t4 - t1) - (t3 - t2)

/-- `ClockSynchronizer.processMeasurement(t1, t2, t3, t4)`: first
measurement initializes the state; a non-positive time delta discards
the measurement; otherwise one Kalman predict/update step runs, with
the two variance floors `1` and `0.01` of the source. -/
def processMeasurement (p : ClockParams) (t1 t2 t3 t4 : ℚ) (s : ClockState) : ClockState :=
  if s.measurementCount = 0 then
    { s with offset := measuredOffset t1 t2 t3 t4, lastUpdateTime := t4, measurementCount := 1 }
  else if (t4 - s.lastUpdateTime) / 1000000 ≤ 0 then
    s
  else
    let dt := (t4 - s.lastUpdateTime) / 1000000
    let predictedOffset := s.offset + s.drift * dt
    let predictedDrift := s.drift
    let p00 := s.offsetVariance + 2 * s.covariance * dt + s.driftVariance * dt * dt +
      p.processNoiseOffset * dt
    let p01 := s.covariance + s.driftVariance * dt
    let p11 := s.driftVariance + p.processNoiseDrift * dt
    let r := rtt t1 t2 t3 t4
    let adaptiveMeasurementNoise := p.measurementNoise + (r * r) / 4
    let innovation := measuredOffset t1 t2 t3 t4 - predictedOffset
    let innovationVariance := p00 + adaptiveMeasurementNoise
    let k0 := p00 / innovationVariance
    let k1 := p01 / innovationVariance
    let newOffsetVariance := (1 - k0) * p00
    let newDriftVariance := p11 - k1 * p01
    { offset := predictedOffset + k0 * innovation
      drift := predictedDrift + k1 * innovation
      offsetVariance := if newOffsetVariance < 0 then 1 else newOffsetVariance
      driftVariance := if newDriftVariance < 0 then 1 / 100 else newDriftVariance
      covariance := (1 - k0) * p01
      lastUpdateTime := t4
      measurementCount := s.measurementCount + 1 }

/-- `isConverged`: at least `MIN_MEASUREMENTS = 3` samples and
`Math.sqrt(offsetVariance) < MAX_OFFSET_UNCERTAINTY = 2000`. -/
def isConverged (s : ClockState) : Bool :=
  decide (3 ≤ s.measurementCount) && sqrtLt s.offsetVariance 2000

/-- `reset()`: every field back to the constructor values. -/
def reset (_s : ClockState) : ClockState :=
  { offset := 0, drift := 0, offsetVariance := 10 ^ 12, driftVariance := 10 ^ 6
    covariance := 0, lastUpdateTime := 0, measurementCount := 0 }

/-- `clientToServerTime(clientTimeMicros)`. -/
def clientToServerTime (s : ClockState) (clientTimeMicros : ℚ) : ℚ :=
  if 0 < s.lastUpdateTime then
    clientTimeMicros + (s.offset + s.drift * ((clientTimeMicros - s.lastUpdateTime) / 1000000))
  else
    clientTimeMicros + s.offset

/-- `serverToClientTime(serverTimeMicros)`. -/
def serverToClientTime (s : ClockState) (serverTimeMicros : ℚ) : ℚ :=
  if 0 < s.lastUpdateTime then
    serverTimeMicros -
      (s.offset + s.drift * (((serverTimeMicros - s.offset) - s.lastUpdateTime) / 1000000))
  else
    serverTimeMicros - s.offset

/-- States a `ClockSynchronizer` instance can actually be in: the
constructor state, evolved by `processMeasurement` and `reset`. -/
inductive Reachable (p : ClockParams) : ClockState → Prop where
  | init : Reachable p initState
  | meas {s : ClockState} (t1 t2 t3 t4 : ℚ) :
      Reachable p s → Reachable p (processMeasurement p t1 t2 t3 t4 s)
  | didReset {s : ClockState} : Reachable p s → Reachable p (reset s)

/-! ## ClickTrackGenerator (src/src/calibration/ClickTrackGenerator.ts) -/

structure ClickTrackConfig where
  sampleRate : ℚ
  totalDuration : ℚ
  clickDuration : ℚ
  clickInterval : ℚ
  frequencies : List ℚ
  amplitude : ℚ
deriving DecidableEq

/-- One entry of `getClickTimestamps()`. -/
structure ClickStamp where
  time : ℚ
  frequency : ℚ
deriving DecidableEq, Inhabited

/-- `numClicks = Math.floor(totalDuration * 1000 / clickInterval)`. -/
def numClicks (c : ClickTrackConfig) : ℤ :=
  Int.floor (c.totalDuration * 1000 / c.clickInterval)

/-- `ClickTrackGenerator.getClickTimestamps()`: for `i` below
`numClicks`, entry `i` is `(i * clickInterval, frequencies[i mod len])`.
The `getD` default is never read when `frequencies` is nonempty. -/
def getClickTimestamps (c : ClickTrackConfig) : List ClickStamp :=
  (List.range (numClicks c).toNat).map fun (i : ℕ) =>
    { time := (i : ℚ) * c.clickInterval
      frequency := c.frequencies.getD (i % c.frequencies.length) 0 }

/-! ## CalibrationSession (src/src/calibration/CalibrationSession.ts) -/

/-- The fields of `CalibrationConfig` (src/unnamed/part_004). -/
structure CalibrationConfig where
  clickIntervalMs : ℚ
  totalClicks : ℕ
  frequencies : List ℚ
  sampleRate : ℚ
deriving DecidableEq

/-- The `ClickTrackGenerator` configuration built by the
`CalibrationSession` constructor: `totalClicks` is passed as the
generator's `totalDuration` (seconds) parameter, `clickDuration` is
50 ms, and `amplitude` keeps the generator default `0.8`. -/
def sessionClickTrackConfig (cfg : CalibrationConfig) : ClickTrackConfig :=
  { sampleRate := cfg.sampleRate
    totalDuration := (cfg.totalClicks : ℚ)
    clickDuration := 50
    clickInterval := cfg.clickIntervalMs
    frequencies := cfg.frequencies
    amplitude := 4 / 5 }

/-- `this.expectedClicks` as initialized by the session constructor. -/
def sessionExpectedClicks (cfg : CalibrationConfig) : List ClickStamp :=
  getClickTimestamps (sessionClickTrackConfig cfg)

/-- One microphone detection (the fields of `ClickDetection` used by the
session logic). -/
structure Detection where
  timestamp : ℚ
  frequency : ℚ
deriving DecidableEq

/-- The session events relevant to the listening phase. -/
inductive CalibEvent where
  | started
  | click_detected
  | progress
  | completed
  | errored
deriving DecidableEq

/-- The session state touched by the listening phase: the append-only
detection list and the `isRunning` flag. -/
structure SessionState where
  detections : List Detection
  isRunning : Bool
deriving DecidableEq

/-- `CalibrationSession.handleDetection(detection)`: appends the
detection and emits `click_detected` and `progress`; it performs no
stop-condition check. -/
def handleDetection (s : SessionState) (d : Detection) : SessionState × List CalibEvent :=
  ({ s with detections := s.detections ++ [d] },
   [CalibEvent.click_detected, CalibEvent.progress])

/-- `CalibrationSession.complete()`: a no-op unless running, otherwise
clears `isRunning` and emits `completed`. -/
def sessionComplete (s : SessionState) : SessionState × List CalibEvent :=
  if s.isRunning then
    ({ s with isRunning := false }, [CalibEvent.completed])
  else
    (s, [])

/-- The delay of the auto-stop timer armed by `start()`:
`totalClicks * clickIntervalMs + 5000` milliseconds. -/
def autoStopDelayMs (cfg : CalibrationConfig) : ℚ :=
  (cfg.totalClicks : ℚ) * cfg.clickIntervalMs + 5000

/-- The auto-stop timer callback: `if (isRunning) complete()`. -/
def autoStopFire (s : SessionState) : SessionState × List CalibEvent :=
  if s.isRunning then sessionComplete s else (s, [])

/-! ## Detection-to-schedule matching
(`CalibrationSession.matchDetections`, src/src/calibration/CalibrationSession.ts) -/

/-- Matching frequency tolerance of `matchDetections` (Hz). -/
def frequencyTolerance : ℚ := 150

/-- The inner loop of the first (seed-offset) pass: the first schedule
entry whose frequency matches the detection within tolerance yields
`detection.timestamp - expected.time`; no match leaves the estimate 0. -/
def firstFreqMatchOffset (d : Detection) (expected : List ClickStamp) : ℚ :=
  match expected.find? (fun e => decide (|d.frequency - e.frequency| ≤ frequencyTolerance)) with
  | some e => d.timestamp - e.time
  | none => 0

/-- The outer loop of the seed-offset pass over the first 5 detections:
stop at the first detection whose computed offset is nonzero (the
source overloads 0 as the "no seed found" sentinel). -/
def estimateOffsetGo (expected : List ClickStamp) : List Detection → ℚ
  | [] => 0
  | d :: rest =>
    if firstFreqMatchOffset d expected ≠ 0 then firstFreqMatchOffset d expected
    else estimateOffsetGo expected rest

/-- `estimatedOffset` of `matchDetections`: seeded from
`detections.slice(0, 5)`. -/
def estimateOffset (detections : List Detection) (expected : List ClickStamp) : ℚ :=
  estimateOffsetGo expected (detections.take 5)

/-- The best-match scan over schedule indices for one detection: skip
consumed indices, require frequency within tolerance, require the
offset-adjusted time difference below 300 ms, and keep the index with
the smallest difference. -/
def bestMatchScan (d : Detection) (used : List ℕ) (estOff : ℚ)
    (expected : List ClickStamp) : Option (ℕ × ℚ) :=
  (List.range expected.length).foldl
    (fun best i =>
      if i ∈ used then best
      else if frequencyTolerance < |d.frequency - (expected.getD i default).frequency| then best
      else
        match best with
        | none =>
          if |d.timestamp - ((expected.getD i default).time + estOff)| < 300 then
            some (i, |d.timestamp - ((expected.getD i default).time + estOff)|)
          else none
        | some b =>
          if |d.timestamp - ((expected.getD i default).time + estOff)| < 300 ∧
              |d.timestamp - ((expected.getD i default).time + estOff)| < b.2 then
            some (i, |d.timestamp - ((expected.getD i default).time + estOff)|)
          else some b)
    none

/-- The main loop of `matchDetections`: each detection takes its best
unconsumed schedule index, which is then marked consumed in
`usedExpected`.  The consumed index is kept alongside the produced
`(expectedTime, detectedTime)` pair so that the no-reuse invariant can
be stated. -/
def matchLoop (expected : List ClickStamp) (estOff : ℚ) :
    List Detection → List ℕ → List (ℕ × ℚ × ℚ)
  | [], _ => []
  | d :: rest, used =>
    match bestMatchScan d used estOff expected with
    | none => matchLoop expected estOff rest used
    | some (i, _) =>
      (i, (expected.getD i default).time, d.timestamp) ::
        matchLoop expected estOff rest (i :: used)

/-- `CalibrationSession.matchDetections()`: the returned list of
`{expectedTime, detectedTime}` pairs. -/
def matchDetections (detections : List Detection) (expected : List ClickStamp) :
    List (ℚ × ℚ) :=
  (matchLoop expected (estimateOffset detections expected) detections []).map
    fun t => (t.2.1, t.2.2)

/-! ## OffsetCalculator (src/src/calibration/OffsetCalculator.ts)

`calculateAverageOffset` receives the matched pairs.  Its helpers
`mean` and `standardDeviation` are embedded as `listMean` and
`listVariance` (the source takes the square root of the variance only
to compare and to report; comparisons are embedded exactly via
`absLeTwoSqrt` and the reported fields keep `Real.sqrt`). -/

/-- `detections.map((d) => d.detectedTime - d.expectedTime)` for pairs
`(expectedTime, detectedTime)`. -/
def rawOffsets (l : List (ℚ × ℚ)) : List ℚ :=
  l.map fun d => d.2 - d.1

/-- `mean(arr) = sum / arr.length`. -/
def listMean (l : List ℚ) : ℚ :=
  l.sum / (l.length : ℚ)

/-- The square of `standardDeviation(arr, mean)`:
`sum((x - mean)^2) / arr.length`. -/
def listVariance (l : List ℚ) (m : ℚ) : ℚ :=
  (l.map fun x => (x - m) * (x - m)).sum / (l.length : ℚ)

/-- The outlier filter of `calculateAverageOffset`: keep the offsets
with `Math.abs(offset - mean) <= 2 * stdDev`. -/
def filteredOffsets (l : List (ℚ × ℚ)) : List ℚ :=
  (rawOffsets l).filter fun x =>
    absLeTwoSqrt (x - listMean (rawOffsets l))
      (listVariance (rawOffsets l) (listMean (rawOffsets l)))

/-- The record returned by `calculateAverageOffset`. -/
structure AvgOffsetResult where
  offsetMs : ℚ
  confidence : ℝ
  stdDev : ℝ

/-- `OffsetCalculator.calculateAverageOffset(detections)`: `(0, 0, 0)`
on the empty list; if the outlier filter removes everything, the
unfiltered mean with confidence `0.5`; otherwise the filtered mean and
standard deviation with confidence
`min(1, max(0, 1 - stdDev / 50))`. -/
noncomputable def calculateAverageOffset (l : List (ℚ × ℚ)) : AvgOffsetResult :=
  if l.length = 0 then
    { offsetMs := 0, confidence := 0, stdDev := 0 }
  else if (filteredOffsets l).length = 0 then
    { offsetMs := listMean (rawOffsets l)
      confidence := 1 / 2
      stdDev := Real.sqrt ((listVariance (rawOffsets l) (listMean (rawOffsets l)) : ℚ) : ℝ) }
  else
    { offsetMs := listMean (filteredOffsets l)
      confidence := min 1 (max 0 (1 -
        Real.sqrt ((listVariance (filteredOffsets l) (listMean (filteredOffsets l)) : ℚ) : ℝ) / 50))
      stdDev := Real.sqrt ((listVariance (filteredOffsets l) (listMean (filteredOffsets l)) : ℚ) : ℝ) }

/-- The matched pairs whose raw differences are `[10, 10, 10, 10, 500]`
milliseconds (the outlier-rejection example of the specification). -/
def outlierPairs : List (ℚ × ℚ) :=
  [(0, 10), (1000, 1010), (2000, 2010), (3000, 3010), (4000, 4500)]

end GroupSync

namespace GroupSync

/-! ## Basic lemmas about the clock synchronizer -/

theorem drift_eq_zero_of_count_eq_zero (p : ClockParams) :
    ∀ s : ClockState, Reachable p s → s.measurementCount = 0 → s.drift = 0 := by
  intro s h
  induction h with
  | init => intro _; rfl
  | meas t1 t2 t3 t4 hs ih =>
      intro h0
      exfalso
      unfold processMeasurement at h0
      by_cases hc : ‹ClockState›.measurementCount = 0
      · simp [hc] at h0
      · rename_i s0
        rw [if_neg hc] at h0
        by_cases hdt : (t4 - s0.lastUpdateTime) / 1000000 ≤ 0
        · rw [if_pos hdt] at h0
          exact hc h0
        · rw [if_neg hdt] at h0
          simp at h0
  | didReset hs ih => intro _; rfl

/-- C1: every call to `processMeasurement(t1, t2, t3, t4)` computes the
measured offset as `((t2 - t1) + (t3 - t4)) / 2`, and on the first
measurement (`sampleCount = 0`) it only initializes the state to
`offset = measuredOffset`, `drift = 0`, `lastUpdateTime = t4`,
`sampleCount = 1`, leaving every covariance entry untouched (no Kalman
predict/update step runs). -/
theorem processMeasurement_first_initializes (p : ClockParams) (s : ClockState)
    (t1 t2 t3 t4 : ℚ) (hs : Reachable p s) (h0 : s.measurementCount = 0) :
    processMeasurement p t1 t2 t3 t4 s =
      { s with offset := ((t2 - t1) + (t3 - t4)) / 2
               lastUpdateTime := t4, measurementCount := 1 } ∧
    (processMeasurement p t1 t2 t3 t4 s).offset = ((t2 - t1) + (t3 - t4)) / 2 ∧
    (processMeasurement p t1 t2 t3 t4 s).drift = 0 ∧
    (processMeasurement p t1 t2 t3 t4 s).lastUpdateTime = t4 ∧
    (processMeasurement p t1 t2 t3 t4 s).measurementCount = 1 ∧
    (processMeasurement p t1 t2 t3 t4 s).offsetVariance = s.offsetVariance ∧
    (processMeasurement p t1 t2 t3 t4 s).driftVariance = s.driftVariance ∧
    (processMeasurement p t1 t2 t3 t4 s).covariance = s.covariance := by
  have hd := drift_eq_zero_of_count_eq_zero p s hs h0
  have heq : processMeasurement p t1 t2 t3 t4 s =
      { s with offset := measuredOffset t1 t2 t3 t4
               lastUpdateTime := t4, measurementCount := 1 } := by
    unfold processMeasurement
    rw [if_pos h0]
  rw [heq]
  exact ⟨rfl, rfl, hd, rfl, rfl, rfl, rfl, rfl⟩

/-- Witness for C1 at the constructor state and a concrete exchange. -/
theorem processMeasurement_first_initializes_witness :
    (processMeasurement defaultParams 1 2 3 4 initState).offset = ((2 - 1) + (3 - 4)) / 2 ∧
    (processMeasurement defaultParams 1 2 3 4 initState).drift = 0 ∧
    (processMeasurement defaultParams 1 2 3 4 initState).measurementCount = 1 :=
  ⟨(processMeasurement_first_initializes defaultParams initState 1 2 3 4
      Reachable.init rfl).2.1,
   (processMeasurement_first_initializes defaultParams initState 1 2 3 4
      Reachable.init rfl).2.2.1,
   (processMeasurement_first_initializes defaultParams initState 1 2 3 4
      Reachable.init rfl).2.2.2.2.1⟩

/-- C2: `isConverged` holds exactly when at least 3 measurements have
been processed and the offset uncertainty `sqrt(offsetVariance)` is
below 2000 microseconds; in particular it is false before the third
measurement and false immediately after `reset()`. -/
theorem isConverged_iff_spec (s : ClockState) (hv : 0 ≤ s.offsetVariance) :
    (isConverged s = true ↔
      3 ≤ s.measurementCount ∧ Real.sqrt ((s.offsetVariance : ℚ) : ℝ) < 2000) ∧
    (s.measurementCount < 3 → isConverged s = false) ∧
    isConverged (reset s) = false := by
  refine ⟨?_, ?_, by unfold reset; decide⟩
  · unfold isConverged sqrtLt
    rw [Bool.and_eq_true, decide_eq_true_eq, decide_eq_true_eq]
    constructor
    · rintro ⟨h3, _, _, hlt⟩
      refine ⟨h3, ?_⟩
      rw [Real.sqrt_lt' (by norm_num : (0:ℝ) < 2000)]
      have : ((s.offsetVariance : ℚ) : ℝ) < ((2000 : ℚ) ^ 2 : ℚ) := by exact_mod_cast hlt
      calc ((s.offsetVariance : ℚ) : ℝ) < ((2000 : ℚ) ^ 2 : ℚ) := this
        _ = (2000 : ℝ) ^ 2 := by push_cast; ring
    · rintro ⟨h3, hlt⟩
      have hb : ((s.offsetVariance : ℚ) : ℝ) < (2000 : ℝ) ^ 2 :=
        (Real.sqrt_lt' (by norm_num : (0:ℝ) < 2000)).mp hlt
      refine ⟨h3, hv, by norm_num, ?_⟩
      exact_mod_cast hb
  · intro h3
    unfold isConverged
    have hdec : decide (3 ≤ s.measurementCount) = false := by
      rw [decide_eq_false_iff_not]
      omega
    rw [hdec, Bool.false_and]

/-- Witness for C2 at the constructor state. -/
theorem isConverged_iff_spec_witness :
    isConverged (reset initState) = false :=
  (isConverged_iff_spec initState (by decide)).2.2

/-- C3: once at least one measurement has been processed, a measurement
whose `t4` is at or before `lastUpdateTime` (non-positive `dt`) is
discarded and the whole state is returned unchanged. -/
theorem processMeasurement_discards_stale (p : ClockParams) (s : ClockState)
    (t1 t2 t3 t4 : ℚ) (h1 : 1 ≤ s.measurementCount) (h4 : t4 ≤ s.lastUpdateTime) :
    processMeasurement p t1 t2 t3 t4 s = s := by
  have hc : ¬ s.measurementCount = 0 := by omega
  have hdt : (t4 - s.lastUpdateTime) / 1000000 ≤ 0 := by linarith
  unfold processMeasurement
  rw [if_neg hc, if_pos hdt]

/-- Witness for C3 at a concrete post-first-measurement state. -/
theorem processMeasurement_discards_stale_witness :
    processMeasurement defaultParams 0 0 0 3 ⟨0, 0, 1, 1, 0, 5, 1⟩ = ⟨0, 0, 1, 1, 0, 5, 1⟩ :=
  processMeasurement_discards_stale defaultParams ⟨0, 0, 1, 1, 0, 5, 1⟩ 0 0 0 3
    (by decide) (by decide)

/-- C10: with zero drift the two time-domain conversions are exact
inverses: `serverToClientTime (clientToServerTime t) = t`. -/
theorem roundTrip_time_conversion (s : ClockState) (t : ℚ) (hd : s.drift = 0) :
    serverToClientTime s (clientToServerTime s t) = t := by
  by_cases h : 0 < s.lastUpdateTime <;>
    simp [clientToServerTime, serverToClientTime, h, hd]

/-- Witness for C10 at a concrete zero-drift state. -/
theorem roundTrip_time_conversion_witness :
    serverToClientTime ⟨7, 0, 1, 1, 0, 5, 1⟩
      (clientToServerTime ⟨7, 0, 1, 1, 0, 5, 1⟩ 100) = 100 :=
  roundTrip_time_conversion ⟨7, 0, 1, 1, 0, 5, 1⟩ 100 rfl

/-! ## Click track schedule -/

theorem getClickTimestamps_get (c : ClickTrackConfig) (i : ℕ)
    (hi : i < (getClickTimestamps c).length) :
    (getClickTimestamps c).get ⟨i, hi⟩ =
      { time := (i : ℚ) * c.clickInterval
        frequency := c.frequencies.getD (i % c.frequencies.length) 0 } := by
  simp [getClickTimestamps]

/-- C4: on a valid configuration (positive click interval, nonnegative
total duration, nonempty frequency list) the schedule has exactly
`floor(totalDuration * 1000 / clickInterval)` entries, entry `i` has
time `i * clickInterval` (hence consecutive times are exactly
`clickInterval` apart and strictly increasing) and frequency
`frequencies[i mod len(frequencies)]`. -/
theorem getClickTimestamps_schedule_spec (c : ClickTrackConfig)
    (hI : 0 < c.clickInterval) (hD : 0 ≤ c.totalDuration) (hf : c.frequencies ≠ []) :
    (((getClickTimestamps c).length : ℤ) =
        Int.floor (c.totalDuration * 1000 / c.clickInterval)) ∧
    (∀ i (hi : i < (getClickTimestamps c).length),
      ((getClickTimestamps c).get ⟨i, hi⟩).time = (i : ℚ) * c.clickInterval ∧
      ((getClickTimestamps c).get ⟨i, hi⟩).frequency =
        c.frequencies.get ⟨i % c.frequencies.length,
          Nat.mod_lt i (List.length_pos.mpr hf)⟩) ∧
    (∀ i (hi : i + 1 < (getClickTimestamps c).length),
      ((getClickTimestamps c).get ⟨i + 1, hi⟩).time =
        ((getClickTimestamps c).get ⟨i, Nat.lt_of_succ_lt hi⟩).time + c.clickInterval ∧
      ((getClickTimestamps c).get ⟨i, Nat.lt_of_succ_lt hi⟩).time <
        ((getClickTimestamps c).get ⟨i + 1, hi⟩).time) := by
  refine ⟨?_, ?_, ?_⟩
  · have hlen : (getClickTimestamps c).length = (numClicks c).toNat := by
      simp [getClickTimestamps]
    have hnn : 0 ≤ numClicks c :=
      Int.floor_nonneg.mpr
        (div_nonneg (mul_nonneg hD (by norm_num : (0:ℚ) ≤ 1000)) hI.le)
    rw [hlen, Int.toNat_of_nonneg hnn]
    rfl
  · intro i hi
    rw [getClickTimestamps_get c i hi]
    refine ⟨rfl, ?_⟩
    have hm : i % c.frequencies.length < c.frequencies.length :=
      Nat.mod_lt i (List.length_pos.mpr hf)
    rw [List.getD_eq_getElem _ _ hm, List.get_eq_getElem]
  · intro i hi
    rw [getClickTimestamps_get c (i + 1) hi, getClickTimestamps_get c i (Nat.lt_of_succ_lt hi)]
    constructor
    · push_cast
      ring
    · have h1 : (i : ℚ) * c.clickInterval < (i : ℚ) * c.clickInterval + c.clickInterval :=
        lt_add_of_pos_right _ hI
      calc ((i : ℚ)) * c.clickInterval < (i : ℚ) * c.clickInterval + c.clickInterval := h1
        _ = ((i + 1 : ℕ) : ℚ) * c.clickInterval := by push_cast; ring

/-- Witness for C4 at the default click-track configuration. -/
theorem getClickTimestamps_schedule_spec_witness :
    ((getClickTimestamps ⟨48000, 20, 5, 1000, [1000, 2000, 4000, 8000], 4/5⟩).length : ℤ) =
      Int.floor ((20 : ℚ) * 1000 / 1000) :=
  (getClickTimestamps_schedule_spec ⟨48000, 20, 5, 1000, [1000, 2000, 4000, 8000], 4/5⟩
    (by norm_num) (by norm_num) (by decide)).1

/-- C9: the expected-click schedule the session constructor builds has
`floor(totalClicks * 1000 / clickIntervalMs)` entries, because
`totalClicks` is passed to the click-track generator as its
total-duration-in-seconds parameter; when `clickIntervalMs = 1000` this
count equals `totalClicks`. -/
theorem sessionExpectedClicks_count (cfg : CalibrationConfig)
    (hI : 0 < cfg.clickIntervalMs) :
    (((sessionExpectedClicks cfg).length : ℤ) =
      Int.floor ((cfg.totalClicks : ℚ) * 1000 / cfg.clickIntervalMs)) ∧
    (cfg.clickIntervalMs = 1000 → (sessionExpectedClicks cfg).length = cfg.totalClicks) := by
  have hlen : (sessionExpectedClicks cfg).length =
      (numClicks (sessionClickTrackConfig cfg)).toNat := by
    simp [sessionExpectedClicks, getClickTimestamps]
  have hnn : 0 ≤ numClicks (sessionClickTrackConfig cfg) :=
    Int.floor_nonneg.mpr
      (div_nonneg (mul_nonneg (Nat.cast_nonneg _) (by norm_num)) hI.le)
  constructor
  · rw [hlen, Int.toNat_of_nonneg hnn]
    rfl
  · intro h1000
    rw [hlen]
    have hval : numClicks (sessionClickTrackConfig cfg) = (cfg.totalClicks : ℤ) := by
      unfold numClicks sessionClickTrackConfig
      rw [h1000]
      rw [mul_div_assoc]
      norm_num
    rw [hval, Int.toNat_natCast]

/-- Witness for C9 at the default calibration configuration. -/
theorem sessionExpectedClicks_count_witness :
    (sessionExpectedClicks ⟨1000, 20, [500, 1000, 2000, 3000], 48000⟩).length = 20 :=
  (sessionExpectedClicks_count ⟨1000, 20, [500, 1000, 2000, 3000], 48000⟩
    (by norm_num)).2 rfl

/-! ## Offset aggregation -/

theorem listVariance_nonneg (l : List ℚ) (m : ℚ) : 0 ≤ listVariance l m := by
  unfold listVariance
  apply div_nonneg
  · apply List.sum_nonneg
    intro x hx
    rw [List.mem_map] at hx
    obtain ⟨y, -, rfl⟩ := hx
    exact mul_self_nonneg _
  · exact Nat.cast_nonneg _

theorem absLeTwoSqrt_iff (d v : ℚ) (hv : 0 ≤ v) :
    absLeTwoSqrt d v = true ↔ |((d : ℚ) : ℝ)| ≤ 2 * Real.sqrt ((v : ℚ) : ℝ) := by
  have hv' : (0 : ℝ) ≤ ((v : ℚ) : ℝ) := by exact_mod_cast hv
  have h4 : Real.sqrt (4 * ((v : ℚ) : ℝ)) = 2 * Real.sqrt ((v : ℚ) : ℝ) := by
    rw [show (4 : ℝ) = 2 ^ 2 by norm_num, Real.sqrt_mul (by positivity) ((v : ℚ) : ℝ),
      Real.sqrt_sq (by norm_num : (0:ℝ) ≤ 2)]
  unfold absLeTwoSqrt
  rw [decide_eq_true_eq, ← h4,
    Real.le_sqrt (abs_nonneg _) (by linarith), sq_abs]
  constructor
  · rintro ⟨-, hle⟩
    exact_mod_cast hle
  · intro h
    exact ⟨hv, by exact_mod_cast h⟩

/-- C6: on the empty list of matched detections,
`calculateAverageOffset` returns exactly
`{offsetMs := 0, confidence := 0, stdDev := 0}`; the function is total,
so the empty-set edge case raises no error and performs no division by
zero. -/
theorem calculateAverageOffset_empty :
    calculateAverageOffset [] = { offsetMs := 0, confidence := 0, stdDev := 0 } := rfl

theorem rawOffsets_outlier : rawOffsets outlierPairs = [10, 10, 10, 10, 500] := by
  norm_num [rawOffsets, outlierPairs]

theorem listMean_outlier : listMean [10, 10, 10, 10, 500] = (108 : ℚ) := by
  norm_num [listMean, List.sum_cons, List.sum_nil]

theorem listVariance_outlier : listVariance [10, 10, 10, 10, 500] 108 = (38416 : ℚ) := by
  norm_num [listVariance, List.sum_cons, List.sum_nil]

theorem filteredOffsets_outlier : filteredOffsets outlierPairs = [10, 10, 10, 10, 500] := by
  unfold filteredOffsets absLeTwoSqrt
  rw [rawOffsets_outlier, listMean_outlier, listVariance_outlier]
  norm_num [List.filter_cons, decide_eq_true_eq]

theorem calculateAverageOffset_outlier_offsetMs :
    (calculateAverageOffset outlierPairs).offsetMs = 108 := by
  unfold calculateAverageOffset
  rw [if_neg (by norm_num [outlierPairs] :
        ¬ (outlierPairs.length = 0)),
    if_neg (by rw [filteredOffsets_outlier]; norm_num :
        ¬ ((filteredOffsets outlierPairs).length = 0))]
  show listMean (filteredOffsets outlierPairs) = 108
  rw [filteredOffsets_outlier, listMean_outlier]

/-- C5 counterexample: on the matched pairs with raw differences
`[10, 10, 10, 10, 500]` ms the 500 ms value deviates from the mean 108
by exactly two standard deviations (392 = 2 * 196), so the filter
`Math.abs(offset - mean) <= 2 * stdDev` keeps it: nothing is discarded
and the final mean is 108, not the 10 that excluding the outlier would
give. -/
theorem outlier_not_excluded_counterexample :
    filteredOffsets outlierPairs = [10, 10, 10, 10, 500] ∧
    (calculateAverageOffset outlierPairs).offsetMs = 108 ∧
    (108 : ℚ) ≠ 10 :=
  ⟨filteredOffsets_outlier, calculateAverageOffset_outlier_offsetMs, by norm_num⟩

/-- C5 amended: `calculateAverageOffset` keeps exactly the matched
pairs whose difference deviates from the raw mean by at most two
standard deviations (discarding only strict exceedances), and on the
raw differences `[10, 10, 10, 10, 500]` the 500 ms pair lies exactly at
two standard deviations, is kept, and the final mean and standard
deviation are 108 and 196. -/
theorem calculateAverageOffset_filter_spec :
    (∀ (l : List (ℚ × ℚ)) (x : ℚ),
      x ∈ filteredOffsets l ↔
        x ∈ rawOffsets l ∧
          |((x : ℚ) : ℝ) - ((listMean (rawOffsets l) : ℚ) : ℝ)| ≤
            2 * Real.sqrt ((listVariance (rawOffsets l) (listMean (rawOffsets l)) : ℚ) : ℝ)) ∧
    (calculateAverageOffset outlierPairs).offsetMs = 108 ∧
    (calculateAverageOffset outlierPairs).stdDev = 196 := by
  refine ⟨?_, ?_, ?_⟩
  · intro l x
    unfold filteredOffsets
    rw [List.mem_filter,
      absLeTwoSqrt_iff _ _ (listVariance_nonneg (rawOffsets l) (listMean (rawOffsets l)))]
    have hcast : |((x - listMean (rawOffsets l) : ℚ) : ℝ)| =
        |((x : ℚ) : ℝ) - ((listMean (rawOffsets l) : ℚ) : ℝ)| := by
      push_cast
      rfl
    rw [hcast]
  · exact calculateAverageOffset_outlier_offsetMs
  · unfold calculateAverageOffset
    rw [if_neg (by norm_num [outlierPairs] :
          ¬ (outlierPairs.length = 0)),
      if_neg (by rw [filteredOffsets_outlier]; norm_num :
          ¬ ((filteredOffsets outlierPairs).length = 0))]
    show Real.sqrt
      ((listVariance (filteredOffsets outlierPairs)
        (listMean (filteredOffsets outlierPairs)) : ℚ) : ℝ) = 196
    have hval : listVariance (filteredOffsets outlierPairs)
        (listMean (filteredOffsets outlierPairs)) = 38416 := by
      rw [filteredOffsets_outlier, listMean_outlier, listVariance_outlier]
    rw [hval, show ((38416 : ℚ) : ℝ) = (196 : ℝ) ^ 2 by norm_num,
      Real.sqrt_sq (by norm_num : (0:ℝ) ≤ 196)]

/-! ## Listening-phase stop conditions -/

/-- C7 counterexample: in a running session with `totalClicks = 1`, a
detection brings the count up to `totalClicks`, yet `handleDetection`
leaves the session running and emits no completion event — the
detection count is not checked as a stop condition. -/
theorem handleDetection_no_count_stop :
    (handleDetection ⟨[], true⟩ ⟨0, 500⟩).1.detections.length =
      (⟨1000, 1, [500], 48000⟩ : CalibrationConfig).totalClicks ∧
    (handleDetection ⟨[], true⟩ ⟨0, 500⟩).1.isRunning = true ∧
    CalibEvent.completed ∉ (handleDetection ⟨[], true⟩ ⟨0, 500⟩).2 := by
  decide

/-- C7 amended: the listening phase ends only through the auto-stop
timer armed at `totalClicks * clickIntervalMs + 5000` ms (or an
explicit stop): `handleDetection` records the detection and emits
`click_detected` and `progress` but never completes the session, while
the timer callback always leaves the session stopped and, on a running
session, emits `completed`. -/
theorem listening_stop_is_timer_only :
    (∀ (s : SessionState) (d : Detection),
      (handleDetection s d).1.isRunning = s.isRunning ∧
      (handleDetection s d).1.detections = s.detections ++ [d] ∧
      (handleDetection s d).2 = [CalibEvent.click_detected, CalibEvent.progress] ∧
      CalibEvent.completed ∉ (handleDetection s d).2) ∧
    (∀ (l : List Detection),
      (autoStopFire ⟨l, true⟩).1.isRunning = false ∧
      (autoStopFire ⟨l, true⟩).2 = [CalibEvent.completed]) ∧
    (∀ (s : SessionState), (autoStopFire s).1.isRunning = false) ∧
    (∀ (cfg : CalibrationConfig),
      autoStopDelayMs cfg = (cfg.totalClicks : ℚ) * cfg.clickIntervalMs + 5000) := by
  refine ⟨?_, ?_, ?_, fun _ => rfl⟩
  · intro s d
    refine ⟨rfl, rfl, rfl, ?_⟩
    intro hmem
    simp [handleDetection] at hmem
  · intro l
    constructor <;> simp [autoStopFire, sessionComplete]
  · intro s
    cases hb : s.isRunning <;> simp [autoStopFire, sessionComplete, hb]

/-! ## Matching: no schedule entry is consumed twice -/

theorem foldl_preserve {α β : Type} (f : β → α → β) (P : β → Prop) :
    ∀ (l : List α) (b : β), P b → (∀ b a, a ∈ l → P b → P (f b a)) → P (l.foldl f b) := by
  intro l
  induction l with
  | nil => intro b hb _; exact hb
  | cons a t ih =>
      intro b hb hstep
      rw [List.foldl_cons]
      exact ih (f b a) (hstep b a (by simp) hb)
        (fun bb aa haa hbb => hstep bb aa (by simp [haa]) hbb)

theorem bestMatchScan_spec (d : Detection) (used : List ℕ) (estOff : ℚ)
    (expected : List ClickStamp) :
    ∀ i q, bestMatchScan d used estOff expected = some (i, q) →
      i ∉ used ∧ i < expected.length := by
  unfold bestMatchScan
  apply foldl_preserve
    (P := fun o => ∀ i q, o = some (i, q) → i ∉ used ∧ i < expected.length)
  · intro i q h
    simp at h
  · intro b a ha hb
    have halen : a < expected.length := List.mem_range.mp ha
    by_cases h1 : a ∈ used
    · rw [if_pos h1]
      exact hb
    · rw [if_neg h1]
      by_cases h2 : frequencyTolerance <
          |d.frequency - (expected.getD a default).frequency|
      · rw [if_pos h2]
        exact hb
      · rw [if_neg h2]
        cases b with
        | none =>
            by_cases h3 : |d.timestamp - ((expected.getD a default).time + estOff)| < 300
            · rw [if_pos h3]
              intro i q h
              rw [Option.some_inj] at h
              cases h
              exact ⟨h1, halen⟩
            · rw [if_neg h3]
              intro i q h
              simp at h
        | some bb =>
            intro i q h
            simp only at h
            by_cases h3 : |d.timestamp - ((expected.getD a default).time + estOff)| < 300 ∧
                |d.timestamp - ((expected.getD a default).time + estOff)| < bb.2
            · rw [if_pos h3, Option.some_inj] at h
              cases h
              exact ⟨h1, halen⟩
            · rw [if_neg h3] at h
              exact hb i q h

theorem matchLoop_spec (expected : List ClickStamp) (estOff : ℚ) :
    ∀ (dets : List Detection) (used : List ℕ),
      (∀ j ∈ (matchLoop expected estOff dets used).map Prod.fst,
        j ∉ used ∧ j < expected.length) ∧
      ((matchLoop expected estOff dets used).map Prod.fst).Nodup ∧
      (matchLoop expected estOff dets used).length ≤ dets.length := by
  intro dets
  induction dets with
  | nil => intro used; simp [matchLoop]
  | cons d rest ih =>
      intro used
      rw [matchLoop]
      cases hbm : bestMatchScan d used estOff expected with
      | none =>
          obtain ⟨hmem, hnd, hlen⟩ := ih used
          exact ⟨hmem, hnd, hlen.trans (Nat.le_succ _)⟩
      | some iq =>
          obtain ⟨i, q⟩ := iq
          obtain ⟨hiu, hilen⟩ := bestMatchScan_spec d used estOff expected i q hbm
          obtain ⟨hmem, hnd, hlen⟩ := ih (i :: used)
          refine ⟨?_, ?_, ?_⟩
          · intro j hj
            rw [List.map_cons, List.mem_cons] at hj
            cases hj with
            | inl hj => cases hj; exact ⟨hiu, hilen⟩
            | inr hj =>
                obtain ⟨hju, hjlen⟩ := hmem j hj
                exact ⟨fun hc => hju (List.mem_cons_of_mem i hc), hjlen⟩
          · rw [List.map_cons, List.nodup_cons]
            refine ⟨fun hc => ?_, hnd⟩
            exact (hmem i hc).1 (List.mem_cons_self i used)
          · rw [List.length_cons]
            exact Nat.succ_le_succ hlen

theorem nodup_bounded_length_le {idx : List ℕ} {n : ℕ}
    (hnd : idx.Nodup) (hlt : ∀ j ∈ idx, j < n) : idx.length ≤ n := by
  classical
  have h1 : idx.toFinset.card = idx.length := List.toFinset_card_of_nodup hnd
  have h2 : idx.toFinset ⊆ Finset.range n := by
    intro j hj
    rw [List.mem_toFinset] at hj
    exact Finset.mem_range.mpr (hlt j hj)
  have h3 := Finset.card_le_card h2
  rw [h1, Finset.card_range] at h3
  exact h3

/-- C8: `matchDetections` consumes every schedule entry at most once:
the returned pairs are the time components of an index-annotated run of
the matching loop whose consumed indices are pairwise distinct, and the
matched list is no longer than the detection list and no longer than
the schedule. -/
theorem matchDetections_no_reuse (detections : List Detection)
    (expected : List ClickStamp) :
    matchDetections detections expected =
      (matchLoop expected (estimateOffset detections expected) detections []).map
        (fun t => (t.2.1, t.2.2)) ∧
    ((matchLoop expected (estimateOffset detections expected) detections []).map
        Prod.fst).Nodup ∧
    (matchDetections detections expected).length ≤
      min detections.length expected.length := by
  obtain ⟨hmem, hnd, hlen⟩ :=
    matchLoop_spec expected (estimateOffset detections expected) detections []
  refine ⟨rfl, hnd, le_min ?_ ?_⟩
  · unfold matchDetections
    rw [List.length_map]
    exact hlen
  · unfold matchDetections
    rw [List.length_map, ← List.length_map
      (matchLoop expected (estimateOffset detections expected) detections []) Prod.fst]
    exact nodup_bounded_length_le hnd (fun j hj => (hmem j hj).2)

end GroupSync
